import Mathlib

/-!
# Shallow embedding of the JarvisBrain RAG subsystem

This file embeds the parts of the repository that the verified properties talk
about, translated from the Python sources:

* `src/core/rag/document_processor.py` — text cleaning, the chunking loop of
  `_split_into_chunks`, chunk merging (`merge_chunks` / `_find_overlap`),
  document-id generation and `process_document`;
* `src/core/memory/vector_store.py` — `add_vectors`, `get_vector`,
  `delete_vector` / `_rebuild_index` and `load`;
* `src/core/rag/retriever.py` — `retrieve`, `_rerank_results` and
  `retrieve_with_reranking`.

Modelling conventions: Python strings are `List Char`; Python `dict`s are
insertion-ordered association lists; numbers that the code only compares (vector
entries, similarity scores) are `ℚ`; the ambient wall clock
(`datetime.now()`) is an explicit `String` argument; the md5 hex digest is an
explicit function argument (no property below depends on its value); a Python
call that can raise is an `Except`, and a loop that can run forever is given
explicit fuel, `none` meaning the fuel ran out.
-/

namespace Jarvis

/-! ## Character classes of the Python regexes used by `DocumentProcessor` -/

/-- The `[.!?]` sentence-terminator class of `patterns['sentence']`. -/
def isSentTerm (c : Char) : Bool := c == '.' || c == '!' || c == '?'

/-- The optional closing-quote class `["\']` of `patterns['sentence']`. -/
def isQuoteChar (c : Char) : Bool := c == '"' || c == '\''

/-- Python `\s` (the ASCII whitespace characters; the texts under study contain
no other whitespace). Also used for `str.strip()`. -/
def isPyWs (c : Char) : Bool :=
  c == ' ' || c == '\t' || c == '\n' || c == '\r' || c == '\x0b' || c == '\x0c'

/-- Python slicing `text[a:b]`: a negative bound counts from the end of the
string (floored at 0), and bounds beyond the length are clamped. -/
def pySlice (cs : List Char) (a b : Int) : List Char :=
  let n : Int := cs.length
  let a' : Int := if a < 0 then max 0 (n + a) else a
  let b' : Int := if b < 0 then max 0 (n + b) else b
  (cs.take b'.toNat).drop a'.toNat

/-- Python `str.strip()`. -/
def pyStrip (cs : List Char) : List Char :=
  ((cs.dropWhile isPyWs).reverse.dropWhile isPyWs).reverse

/-- Attempt to match the regex `[.!?]+["\']?\s+` starting exactly at position
`i` of `cs`, returning the end position of the match. The three character
classes are pairwise disjoint, so the greedy match needs no backtracking. -/
def matchSentence (cs : List Char) (i : Nat) : Option Nat :=
  let rest := cs.drop i
  let terms := rest.takeWhile isSentTerm
  if terms.isEmpty then none
  else
    let rest₂ := rest.drop terms.length
    let q : Nat := match rest₂ with
      | c :: _ => if isQuoteChar c then 1 else 0
      | [] => 0
    let sp := (rest₂.drop q).takeWhile isPyWs
    if sp.isEmpty then none
    else some (i + terms.length + q + sp.length)

/-- Python `pattern.search(text, pos, endpos)` for the sentence regex: `pos` and
`endpos` are clamped into `[0, len]` (CPython's `sre` does this), the text is
cut at `endpos`, and the leftmost match starting at a position `≥ pos` wins.
Returns `match.end()`, an index into the whole string. -/
def sentenceSearch (cs : List Char) (pos endpos : Int) : Option Nat :=
  let cs' := cs.take endpos.toNat
  ((List.range cs'.length).drop pos.toNat).findSome? (matchSentence cs')

/-- The three constructor arguments of `DocumentProcessor`. -/
structure ChunkCfg where
  chunkSize : Nat
  chunkOverlap : Nat
  minChunkSize : Nat
  deriving DecidableEq

/-- The `while start < len(text)` loop of `DocumentProcessor._split_into_chunks`,
with explicit fuel counting loop iterations; `none` means the fuel ran out (the
source loop has no exit other than `start ≥ len(text)` and the final-chunk
`break`, so exhausting every fuel models divergence). `start` is an `Int`
because Python computes `start = end - chunk_overlap` in unbounded ints. -/
def splitLoop (cfg : ChunkCfg) (cs : List Char) :
    Nat → Int → List (List Char) → Option (List (List Char))
  | 0, _, _ => none
  | fuel + 1, start, chunks =>
    if start < (cs.length : Int) then
      let stop : Int := start + cfg.chunkSize
      if (cs.length : Int) ≤ stop then
        -- last chunk: text[start:].strip(), kept when ≥ min_chunk_size
        let chunk := pyStrip (pySlice cs start cs.length)
        some (if cfg.minChunkSize ≤ chunk.length then chunks ++ [chunk] else chunks)
      else
        -- move the cut to a sentence boundary found in [end-100, end+100]
        let stop : Int :=
          match sentenceSearch cs (stop - 100) (stop + 100) with
          | some m => (m : Int)
          | none => stop
        let chunk := pyStrip (pySlice cs start stop)
        let chunks := if cfg.minChunkSize ≤ chunk.length then chunks ++ [chunk] else chunks
        splitLoop cfg cs fuel (stop - cfg.chunkOverlap) chunks
    else
      some chunks

/-- `DocumentProcessor._split_into_chunks(text)` begins at `start = 0` with no
chunks collected. -/
def splitIntoChunks (cfg : ChunkCfg) (fuel : Nat) (cs : List Char) :
    Option (List (List Char)) :=
  splitLoop cfg cs fuel 0 []

/-- The countdown `for size in range(min(len1, len2), 0, -1)` of
`DocumentProcessor._find_overlap`. -/
def findOverlapAux (t1 t2 : List Char) : Nat → Nat
  | 0 => 0
  | size + 1 =>
    if t1.drop (t1.length - (size + 1)) == t2.take (size + 1) then size + 1
    else findOverlapAux t1 t2 size

/-- `DocumentProcessor._find_overlap`: the largest `size` with
`text1[-size:] == text2[:size]`, or 0. -/
def findOverlap (t1 t2 : List Char) : Nat :=
  findOverlapAux t1 t2 (min t1.length t2.length)

/-- `DocumentProcessor.merge_chunks`: every chunk after the first is stripped of
its detected overlap with the previously appended chunk (`if overlap:` is the
Python truthiness test, so an overlap of 0 leaves the chunk alone), and the
pieces are joined by `' '.join`. -/
def mergeChunks (chunks : List (List Char)) : List Char :=
  let merged := chunks.foldl (fun merged chunk =>
    match merged.getLast? with
    | some prev =>
      let ov := findOverlap prev chunk
      merged ++ [if ov ≠ 0 then chunk.drop ov else chunk]
    | none => merged ++ [chunk]) []
  List.intercalate [' '] merged

/-! ## `DocumentProcessor._clean_text` -/

/-- `patterns['whitespace'].sub(' ', text)`: every maximal run of whitespace
becomes one space. The flag records whether the previous character was part of
a whitespace run already replaced. -/
def collapseWsAux : Bool → List Char → List Char
  | _, [] => []
  | prevWs, c :: cs =>
    if isPyWs c then
      if prevWs then collapseWsAux true cs else ' ' :: collapseWsAux true cs
    else c :: collapseWsAux false cs

def collapseWs (cs : List Char) : List Char := collapseWsAux false cs

/-- `text.replace('\r\n', '\n').replace('\r', '\n')` (left-to-right,
non-overlapping, exactly as Python's `str.replace` composes). -/
def replaceCR : List Char → List Char
  | [] => []
  | '\r' :: '\n' :: cs => '\n' :: replaceCR cs
  | '\r' :: cs => '\n' :: replaceCR cs
  | c :: cs => c :: replaceCR cs

/-- `'\n'.join(line for line in text.split('\n') if line.strip())`: drop the
lines that are empty after stripping (Python truthiness of the stripped line). -/
def removeEmptyLines (cs : List Char) : List Char :=
  List.intercalate ['\n']
    ((cs.splitOn '\n').filter (fun l => !(pyStrip l).isEmpty))

/-- `DocumentProcessor._clean_text`. -/
def cleanText (cs : List Char) : List Char :=
  pyStrip (removeEmptyLines (replaceCR (collapseWs cs)))

/-! ## Metadata mappings and `process_document` -/

/-- The metadata values the claims need: Python strings and ints. -/
inductive MVal where
  | str (s : String)
  | nat (n : Nat)
  deriving DecidableEq

/-- Python `str(v)`. -/
def MVal.pyStr : MVal → String
  | .str s => s
  | .nat n => toString n

/-- Python `dict[k]` / `dict.get(k)` / `k in dict` on an insertion-ordered
mapping: the value at the first matching key. -/
def pyGet (m : List (String × MVal)) (k : String) : Option MVal :=
  match m with
  | [] => none
  | p :: rest => if p.1 = k then some p.2 else pyGet rest k

/-- Python `dict[k] = v` on an insertion-ordered mapping: replace the value in
place when the key is present, append otherwise. A mapping that came from a
Python dict never holds a duplicate key. -/
def pySet (m : List (String × MVal)) (k : String) (v : MVal) :
    List (String × MVal) :=
  if m.any (fun p => p.1 = k) then
    m.map (fun p => if p.1 = k then (k, v) else p)
  else m ++ [(k, v)]

/-- Python `dict.update(other)`: assign each pair of `other` in order. -/
def pyUpdate (m : List (String × MVal)) (kvs : List (String × MVal)) :
    List (String × MVal) :=
  kvs.foldl (fun acc kv => pySet acc kv.1 kv.2) m

/-- `DocumentProcessor._generate_doc_id`. The md5 hex digest is the `hash`
argument and `datetime.now().strftime('%Y%m%d%H%M%S')` is the `timestamp`
argument. Python's `if metadata and 'id' in metadata` is falsy both for `None`
and for an empty dict, which coincides with the lookup failing. -/
def genDocId (hash : List Char → String) (content : List Char)
    (metadata : Option (List (String × MVal))) (timestamp : String) : String :=
  match metadata.bind (fun m => pyGet m "id") with
  | some v => v.pyStr
  | none => "doc_" ++ timestamp ++ "_" ++ (hash content).take 8

/-- The `Document` dataclass of `document_processor.py`. -/
structure PDoc where
  id : String
  content : List Char
  metadata : List (String × MVal)
  chunks : List (List Char)
  deriving DecidableEq

/-- `DocumentProcessor.process_document`. `none` models a call that never
returns (the chunking loop can diverge — see `splitLoop`); `fuel` bounds its
iterations. In Python the returned `Document.metadata` is the very dict object
the caller passed in, mutated in place, so the post-call state of the caller's
mapping is exactly the `metadata` field of the result. Both timestamps taken
inside the call (`isoformat` for `processed_at`, `strftime` for the id) are
readings of the same clock, modelled by the single `now` argument. -/
def processDocument (cfg : ChunkCfg) (hash : List Char → String) (fuel : Nat)
    (content : List Char) (metadata : Option (List (String × MVal)))
    (now : String) : Option PDoc :=
  let content := cleanText content
  let docId := genDocId hash content metadata now
  let md := metadata.getD []
  let md := pyUpdate md
    [("processed_at", .str now), ("chunk_size", .nat cfg.chunkSize),
     ("chunk_overlap", .nat cfg.chunkOverlap), ("total_chunks", .nat 0)]
  match splitIntoChunks cfg fuel content with
  | none => none
  | some chunks =>
    let md := pySet md "total_chunks" (.nat chunks.length)
    some ⟨docId, content, md, chunks⟩

/-! ## `VectorStore` (`src/core/memory/vector_store.py`) -/

/-- One entry of `self.metadata`: a dict that `add_vectors` gave a
`'vector_id'` and an `'added_at'` key; `extra` holds the caller's remaining
key/value pairs. -/
structure VMeta where
  vectorId : Int
  addedAt : String
  extra : List (String × MVal)
  deriving DecidableEq

/-- The in-memory state of `VectorStore`: the configured dimension, the flat
faiss index (`index.ntotal = index.length`, position `i` holding the `i`-th
inserted vector) and the parallel `self.metadata` list. Vector entries are `ℚ`;
no claim depends on float32 arithmetic, only on lengths and identity. -/
structure VectorStore where
  dimension : Nat
  index : List (List ℚ)
  metadata : List VMeta
  deriving DecidableEq

/-- The exceptions the modelled `VectorStore` methods can raise (each method
logs and re-raises, so every exception propagates to the caller). -/
inductive VErr where
  /-- numpy/faiss: some vector's length differs from the index dimension (a
  ragged batch fails the `astype('float32')` conversion, a uniform batch of the
  wrong width fails the faiss `d == self.d` assertion). -/
  | dimensionMismatch
  /-- numpy/faiss: an empty batch has shape `(0,)`, which faiss's
  `n, d = x.shape` cannot unpack. -/
  | shapeError
  /-- `IndexError`: more metadata entries than freshly assigned ids. -/
  | metadataIndexError
  /-- faiss `reconstruct` on a negative key. -/
  | reconstructError
  deriving DecidableEq

/-- `VectorStore._init_index()`: replace the index with a fresh empty flat
index of the configured dimension. -/
def initIndex (s : VectorStore) : VectorStore := { s with index := [] }

/-- `VectorStore.add_vectors`. Ids are `range(ntotal, ntotal + len(vectors))`.
Provided metadata dicts each get `vector_id` and `added_at`; without metadata a
fresh two-key dict is appended per vector. `enumerate(metadata)` pairs the
provided dicts with `vector_ids[i]`, so extra metadata entries raise
`IndexError` (the real exception fires only after the index was already
extended; no claim touches that partial state, so the model reports the error
alone), and missing entries are silently allowed. -/
def addVectors (s : VectorStore) (vectors : List (List ℚ))
    (metadata : Option (List (List (String × MVal)))) (now : String) :
    Except VErr (VectorStore × List Int) :=
  if vectors.isEmpty then .error .shapeError
  else if vectors.any (fun v => v.length ≠ s.dimension) then .error .dimensionMismatch
  else
    let startId := s.index.length
    let ids : List Int := (List.range vectors.length).map (fun i => ((startId + i : Nat) : Int))
    match metadata with
    | some ms =>
      if vectors.length < ms.length then .error .metadataIndexError
      else
        let newMeta := (ms.zip ids).map (fun p => VMeta.mk p.2 now p.1)
        .ok ({ s with index := s.index ++ vectors, metadata := s.metadata ++ newMeta }, ids)
    | none =>
      let newMeta := ids.map (fun vid => VMeta.mk vid now [])
      .ok ({ s with index := s.index ++ vectors, metadata := s.metadata ++ newMeta }, ids)

/-- `VectorStore.get_vector`. An id at or above `ntotal` returns `None`; every
other id reaches `faiss.reconstruct`, which raises on a negative key and
otherwise hands back the stored vector at that position. -/
def getVector (s : VectorStore) (vid : Int) : Except VErr (Option (List ℚ)) :=
  if (s.index.length : Int) ≤ vid then .ok none
  else if vid < 0 then .error .reconstructError
  else .ok (s.index.get? vid.toNat)

/-- `VectorStore._rebuild_index`. Faithful to the order in the source:
`_init_index()` replaces `self.index` with a fresh empty index *before* the
loop calls `self.get_vector(meta['vector_id'])`, which reads from that same,
now empty, index. `if vector:` is Python truthiness, so `None` and the empty
list are both skipped. -/
def rebuildIndex (s : VectorStore) : Except VErr VectorStore :=
  (initIndex s).metadata.foldlM (fun st meta => do
    match ← getVector st meta.vectorId with
    | some v => pure (if v.isEmpty then st else { st with index := st.index ++ [v] })
    | none => pure st) (initIndex s)

/-- `VectorStore.delete_vector`: drop the metadata entries whose `vector_id`
matches, then rebuild the whole index from the survivors. -/
def deleteVector (s : VectorStore) (vid : Int) : Except VErr VectorStore :=
  rebuildIndex { s with metadata := s.metadata.filter (fun m => m.vectorId != vid) }

/-- What `VectorStore.load` finds on disk: the optional `index.faiss` snapshot
and the optional `metadata.pkl` list. -/
structure StoreFiles where
  indexFile : Option (List (List ℚ))
  metadataFile : Option (List VMeta)
  deriving DecidableEq

/-- `VectorStore.load`: each of the two files, when present, replaces the
corresponding in-memory component; nothing relates the two, and no consistency
check runs afterward. -/
def load (s : VectorStore) (files : StoreFiles) : VectorStore :=
  let s := match files.indexFile with
    | some idx => { s with index := idx }
    | none => s
  match files.metadataFile with
  | some md => { s with metadata := md }
  | none => s

/-! ## `ContentRetriever` (`src/core/rag/retriever.py`)

The embedding generator, the vector store search and the reranking scorer are
external collaborators and appear as function arguments. -/

/-- The `where` filter dict passed through to the vector store. -/
abbrev Filters := List (String × MVal)

/-- One element of a search result: the spec contract
`{document, similarity, metadata}`. -/
structure RResult where
  document : String
  similarity : ℚ
  metadata : List (String × MVal)
  deriving DecidableEq

/-- The two constructor arguments of `ContentRetriever`. -/
structure RetrieverCfg where
  maxDocuments : Nat
  similarityThreshold : ℚ
  deriving DecidableEq

/-- A failure of the external embedding generator. -/
inductive EmbErr where
  | failed
  deriving DecidableEq

/-- A failure of the reranking score computation. -/
inductive ScoreErr where
  | failed
  deriving DecidableEq

/-- Python `max_documents or self.max_documents`: `None` and `0` are falsy and
fall back to the configured default. -/
def pyOrNat (o : Option Nat) (d : Nat) : Nat :=
  match o with
  | some n => if n = 0 then d else n
  | none => d

/-- `ContentRetriever.retrieve`: embed the query (a failure is logged and
re-raised, so it propagates), search the store with
`n_results = max_documents or self.max_documents`, then keep the results whose
similarity (`result.get('similarity', 0)`; the contract result always carries
one) is at least the configured threshold. -/
def retrieve (embed : String → Except EmbErr (List ℚ))
    (search : List ℚ → Nat → Option Filters → List RResult)
    (cfg : RetrieverCfg) (query : String) (filters : Option Filters)
    (maxDocuments : Option Nat) : Except EmbErr (List RResult) :=
  match embed query with
  | .error e => .error e
  | .ok qe =>
    .ok ((search qe (pyOrNat maxDocuments cfg.maxDocuments) filters).filter
      (fun r => decide (cfg.similarityThreshold ≤ r.similarity)))

/-- Insert into a descending-sorted list, before any equal score: exactly the
order Python's stable `list.sort(key=..., reverse=True)` produces. -/
def insertDescBy (x : RResult × ℚ) : List (RResult × ℚ) → List (RResult × ℚ)
  | [] => [x]
  | y :: ys => if y.2 ≤ x.2 then x :: y :: ys else y :: insertDescBy x ys

def sortDescBy (l : List (RResult × ℚ)) : List (RResult × ℚ) :=
  l.foldr insertDescBy []

/-- `ContentRetriever._rerank_results`: score the (query, document) pairs; on
any failure the `except` clause returns the original list unchanged; otherwise
pair results with scores (`zip` truncates at the shorter list, as in Python),
stable-sort descending by score and drop the scores. -/
def rerankResults (score : String → List RResult → Except ScoreErr (List ℚ))
    (query : String) (results : List RResult) : List RResult :=
  match score query results with
  | .error _ => results
  | .ok scores => (sortDescBy (results.zip scores)).map Prod.fst

/-- `max_documents * 2 if max_documents else self.max_documents * 2` (Python
truthiness again: `None` and `0` take the default). -/
def fetchCount (maxDocuments : Option Nat) (cfg : RetrieverCfg) : Nat :=
  match maxDocuments with
  | some n => if n = 0 then cfg.maxDocuments * 2 else n * 2
  | none => cfg.maxDocuments * 2

/-- `ContentRetriever.retrieve_with_reranking`: fetch `fetchCount` candidates
through `retrieve` (whose failure propagates), return `[]` when there are none,
else rerank and truncate to `max_documents or self.max_documents`. -/
def retrieveWithReranking (embed : String → Except EmbErr (List ℚ))
    (search : List ℚ → Nat → Option Filters → List RResult)
    (score : String → List RResult → Except ScoreErr (List ℚ))
    (cfg : RetrieverCfg) (query : String) (filters : Option Filters)
    (maxDocuments : Option Nat) : Except EmbErr (List RResult) :=
  match retrieve embed search cfg query filters (some (fetchCount maxDocuments cfg)) with
  | .error e => .error e
  | .ok results =>
    if results.isEmpty then .ok []
    else .ok ((rerankResults score query results).take (pyOrNat maxDocuments cfg.maxDocuments))

/-! ## Concrete instances shared by the theorems -/

/-- A fresh two-dimensional store (`VectorStore(dimension=2)`). -/
def exStore0 : VectorStore := ⟨2, [], []⟩

/-- The store after `add_vectors([[1,0],[0,1]])` on a fresh store. -/
def exStore2 : VectorStore :=
  match addVectors exStore0 [[1, 0], [0, 1]] none "t0" with
  | .ok p => p.1
  | .error _ => exStore0

/-- The chunker configuration of the spec's worked example:
`chunk_size=4, chunk_overlap=1, min_chunk_size=1`. -/
def exCfgSmall : ChunkCfg := ⟨4, 1, 1⟩

/-- The spec's worked example text. -/
def exTextABC : List Char := "A. B. C.".data

/-- The `DocumentProcessor` constructor defaults
(`chunk_size=1000, chunk_overlap=200, min_chunk_size=100`). -/
def cfgDefault : ChunkCfg := ⟨1000, 200, 100⟩

/-- A fixed stand-in for the md5 hex digest; no claim below depends on the
digest's value, only on how `_generate_doc_id` uses it. -/
def exHash : List Char → String := fun _ => "0123456789abcdef0123456789abcdef"

/-! ## C1 -/

/-- **C1.** The claim says `delete_vector(id)` removes exactly one record:
`index.ntotal` drops by exactly one and each surviving vector is re-fetched by
its old id *before* the old index is discarded. The code does the opposite:
`_rebuild_index` calls `_init_index()` first, so every `get_vector` inside the
rebuild loop reads the fresh empty index and returns `None`, and nothing is
re-inserted. Concretely: a store holding 2 vectors has `ntotal = 0` (not 1)
after `delete_vector(0)`, while the metadata list correctly keeps 1 entry. -/
theorem C1_delete_vector_wipes_index :
    exStore2.index.length = 2 ∧ exStore2.metadata.length = 2 ∧
    (deleteVector exStore2 0).map (fun s => (s.index.length, s.metadata.length)) =
      Except.ok (0, 1) :=
  ⟨rfl, rfl, rfl⟩

/-! ## C2 -/

/-- First iteration of the chunking loop on `"A. B. C."` with
`chunk_size=4, overlap=1, min=1`: the sentence regex matches `". "` at index 1,
so the cut moves to `end = 3`, chunk `"A."` is emitted and
`start = 3 - 1 = 2`. -/
theorem splitLoop_ABC_step0 (fuel : Nat) :
    splitLoop exCfgSmall exTextABC (fuel + 1) 0 [] =
      splitLoop exCfgSmall exTextABC fuel 2 ["A.".data] := rfl

/-- Every later iteration from `start = 2`: the nominal cut is `2 + 4 = 6 < 8`,
the sentence search (clamped to the whole text) again returns `end = 3`, the
candidate chunk `" "` strips to length 0 and is dropped, and
`start = 3 - 1 = 2` again — no progress. -/
theorem splitLoop_ABC_step2 (fuel : Nat) (acc : List (List Char)) :
    splitLoop exCfgSmall exTextABC (fuel + 1) 2 acc =
      splitLoop exCfgSmall exTextABC fuel 2 acc := rfl

/-- From `start = 2` the loop on the example never exits, whatever the fuel. -/
theorem splitLoop_ABC_stuck (fuel : Nat) (acc : List (List Char)) :
    splitLoop exCfgSmall exTextABC fuel 2 acc = none := by
  induction fuel with
  | zero => rfl
  | succ n ih => rw [splitLoop_ABC_step2]; exact ih

/-- **C2.** The claim says the chunking loop makes strict forward progress and
terminates whenever `chunk_overlap < chunk_size`, in particular on
`"A. B. C."` with `chunk_size=4, chunk_overlap=1, min_chunk_size=1`. It does
not: on exactly that input (which satisfies `overlap < chunk_size`) the loop
reaches `start = 2` after one iteration and then repeats `start = 2` forever,
because the sentence-boundary search window `[end-100, end+100]` reaches back
before `start` and drags the cut point back to index 3. No amount of fuel makes
`_split_into_chunks` return. -/
theorem C2_split_into_chunks_diverges :
    ∀ fuel : Nat, splitIntoChunks exCfgSmall fuel exTextABC = none := by
  intro fuel
  cases fuel with
  | zero => rfl
  | succ n =>
    show splitLoop exCfgSmall exTextABC (n + 1) 0 [] = none
    rw [splitLoop_ABC_step0]
    exact splitLoop_ABC_stuck n _

/-! ## C3 -/

/-- **C3 counterexample.** Splitting `"abcdef"` (length 6 ≥ min_chunk_size = 1)
with `chunk_size=4, overlap=1, min=1` terminates with chunks
`["abcd", "def"]`, but `merge_chunks` strips the detected 1-character overlap
`"d"` and joins with a space, giving `"abcd ef"` — which differs from the
original even after whitespace normalization (`_clean_text`). -/
theorem C3_chunk_merge_not_roundtrip :
    splitIntoChunks ⟨4, 1, 1⟩ 2 "abcdef".data = some ["abcd".data, "def".data] ∧
    mergeChunks ["abcd".data, "def".data] = "abcd ef".data ∧
    cleanText "abcd ef".data ≠ cleanText "abcdef".data :=
  ⟨rfl, rfl, by decide⟩

theorem mergeChunks_singleton (t : List Char) : mergeChunks [t] = t := by
  simp [mergeChunks, List.intercalate]

theorem pySlice_zero_len (t : List Char) : pySlice t 0 (t.length : Int) = t := by
  have hb : ¬((t.length : Int) < 0) := by omega
  simp [pySlice, hb]

/-- **C3 (amended).** Chunk-then-merge reconstructs the text exactly when the
already-normalized text fits in a single chunk, i.e. when
`min_chunk_size ≤ len(text) ≤ chunk_size`: the loop emits the stripped whole
text as the only chunk and `merge_chunks` of a single chunk is the identity.
(For longer texts the space inserted by `' '.join` breaks the claimed
round-trip — see the counterexample.) -/
theorem C3_single_chunk_roundtrip (cfg : ChunkCfg) (t : List Char)
    (hstrip : pyStrip t = t) (hpos : 0 < t.length)
    (hmin : cfg.minChunkSize ≤ t.length) (hmax : t.length ≤ cfg.chunkSize) :
    (splitIntoChunks cfg 1 t).map mergeChunks = some t := by
  have h1 : (0 : Int) < (t.length : Int) := by exact_mod_cast hpos
  have h2 : (t.length : Int) ≤ 0 + (cfg.chunkSize : Int) := by
    rw [zero_add]; exact_mod_cast hmax
  have hsplit : splitIntoChunks cfg 1 t = some [t] := by
    show splitLoop cfg t 1 0 [] = some [t]
    rw [splitLoop]
    rw [if_pos h1, if_pos h2, pySlice_zero_len, hstrip]
    simp [hmin]
  rw [hsplit]
  simp [mergeChunks_singleton]

theorem C3_single_chunk_roundtrip_witness :
    pyStrip "hello".data = "hello".data ∧ 0 < "hello".data.length ∧
    (⟨10, 2, 1⟩ : ChunkCfg).minChunkSize ≤ "hello".data.length ∧
    "hello".data.length ≤ (⟨10, 2, 1⟩ : ChunkCfg).chunkSize ∧
    (splitIntoChunks ⟨10, 2, 1⟩ 1 "hello".data).map mergeChunks = some "hello".data :=
  ⟨by decide, by decide, by decide, by decide,
    C3_single_chunk_roundtrip ⟨10, 2, 1⟩ "hello".data (by decide) (by decide)
      (by decide) (by decide)⟩

/-! ## C4 -/

/-- **C4.** The claim says `load` either restores a state whose index lines up
1:1 with the restored metadata or raises a fatal corruption error. The code
performs no such check: it reads whichever of the two files exist and returns.
Loading a snapshot whose index file holds one vector while the metadata file
holds an empty list returns normally with `index.ntotal = 1` and
`len(metadata) = 0` — a silent length mismatch (the model `load` is a total
function: no raise path exists in the source apart from I/O failures). -/
theorem C4_load_returns_mismatched_state :
    (load ⟨2, [], []⟩ ⟨some [[1, 0]], some []⟩).index.length = 1 ∧
    (load ⟨2, [], []⟩ ⟨some [[1, 0]], some []⟩).metadata.length = 0 :=
  ⟨rfl, rfl⟩

/-! ## C5 -/

/-- **C5.** For every query whose initial retrieval succeeds (`hret`), if the
reranking score computation fails (`hscore`), then `retrieve_with_reranking`
returns the first `max_documents or self.max_documents` candidates in their
original, non-reranked retrieval order, instead of propagating the exception:
`_rerank_results`' `except` clause hands back the original list unchanged, and
the caller merely truncates it. -/
theorem C5_rerank_failure_falls_back
    (embed : String → Except EmbErr (List ℚ))
    (search : List ℚ → Nat → Option Filters → List RResult)
    (score : String → List RResult → Except ScoreErr (List ℚ))
    (cfg : RetrieverCfg) (query : String) (filters : Option Filters)
    (maxDocuments : Option Nat) (results : List RResult) (e : ScoreErr)
    (hret : retrieve embed search cfg query filters (some (fetchCount maxDocuments cfg)) =
      Except.ok results)
    (hscore : score query results = Except.error e) :
    retrieveWithReranking embed search score cfg query filters maxDocuments =
      Except.ok (results.take (pyOrNat maxDocuments cfg.maxDocuments)) := by
  simp only [retrieveWithReranking, hret]
  cases results with
  | nil => simp
  | cons a l =>
    simp only [List.isEmpty_cons, Bool.false_eq_true, if_false, rerankResults, hscore]

def wEmbed : String → Except EmbErr (List ℚ) := fun _ => .ok [1]

/-- A well-behaved stand-in vector store search: it returns at most
`n_results` results, each carrying a similarity at or above `wCfg`'s
threshold. -/
def wSearch : List ℚ → Nat → Option Filters → List RResult :=
  fun _ n _ => ([⟨"d1", 2, []⟩, ⟨"d2", 1, []⟩] : List RResult).take n

/-- A reranking scorer whose computation always fails. -/
def wScore : String → List RResult → Except ScoreErr (List ℚ) := fun _ _ => .error .failed

/-- A concrete `ContentRetriever` configuration: `max_documents = 5` (the
source default) and an integer-valued similarity threshold of 1 (the source
default is 0.7; the general theorems hold for every `ℚ` threshold, and an
integer value keeps the witness computations kernel-reducible). -/
def wCfg : RetrieverCfg := ⟨5, 1⟩

theorem C5_rerank_failure_falls_back_witness :
    retrieve wEmbed wSearch wCfg "q" none (some (fetchCount (some 1) wCfg)) =
      Except.ok [⟨"d1", 2, []⟩, ⟨"d2", 1, []⟩] ∧
    wScore "q" [⟨"d1", 2, []⟩, ⟨"d2", 1, []⟩] = Except.error ScoreErr.failed ∧
    retrieveWithReranking wEmbed wSearch wScore wCfg "q" none (some 1) =
      Except.ok (([⟨"d1", 2, []⟩, ⟨"d2", 1, []⟩] : List RResult).take
        (pyOrNat (some 1) wCfg.maxDocuments)) :=
  ⟨rfl, rfl,
    C5_rerank_failure_falls_back wEmbed wSearch wScore wCfg "q" none (some 1)
      [⟨"d1", 2, []⟩, ⟨"d2", 1, []⟩] ScoreErr.failed rfl rfl⟩

/-! ## C6 -/

/-- **C6 counterexample.** The claim's truncation bound fails when the caller
passes `max_documents = 0`: Python's `max_documents or self.max_documents` is
falsy for 0, so the code searches with the configured default (5) and returns 2
results — more than the `max_documents` the caller supplied. The stand-in
search honours its `n_results` bound, so the extra results come from `retrieve`
itself. -/
theorem C6_zero_max_documents_not_truncated :
    ¬ (∀ rs : List RResult,
        retrieve wEmbed wSearch wCfg "q" none (some 0) = Except.ok rs →
          rs.length ≤ 0) := by
  intro h
  have h2 := h [⟨"d1", 2, []⟩, ⟨"d2", 1, []⟩] rfl
  simp at h2

/-- **C6 (amended).** Provided the vector store search honours its `n_results`
bound, every element of a successful `retrieve(query, filters, max_documents)`
result has similarity ≥ the configured `similarity_threshold`, and the result
holds at most `max_documents` entries when `max_documents` is a positive
number — and at most the configured default when `max_documents` is omitted
*or falsy (0)*. -/
theorem C6_retrieve_threshold_and_truncation
    (embed : String → Except EmbErr (List ℚ))
    (search : List ℚ → Nat → Option Filters → List RResult)
    (cfg : RetrieverCfg) (query : String) (filters : Option Filters)
    (maxDocuments : Option Nat) (rs : List RResult)
    (hsearch : ∀ qe n f, (search qe n f).length ≤ n)
    (hret : retrieve embed search cfg query filters maxDocuments = Except.ok rs) :
    (∀ r ∈ rs, cfg.similarityThreshold ≤ r.similarity) ∧
    rs.length ≤ pyOrNat maxDocuments cfg.maxDocuments := by
  unfold retrieve at hret
  cases hemb : embed query with
  | error e => rw [hemb] at hret; exact absurd hret (by simp)
  | ok qe =>
    rw [hemb] at hret
    have hrs : rs = (search qe (pyOrNat maxDocuments cfg.maxDocuments) filters).filter
        (fun r => decide (cfg.similarityThreshold ≤ r.similarity)) :=
      (Except.ok.injEq _ _ ▸ hret).symm
    constructor
    · intro r hr
      rw [hrs] at hr
      exact of_decide_eq_true (List.mem_filter.mp hr).2
    · rw [hrs]
      exact le_trans (List.length_filter_le _ _) (hsearch _ _ _)

theorem C6_retrieve_threshold_and_truncation_witness :
    (∀ qe n f, (wSearch qe n f).length ≤ n) ∧
    retrieve wEmbed wSearch wCfg "q" none (some 1) = Except.ok [⟨"d1", 2, []⟩] ∧
    ((∀ r ∈ [(⟨"d1", 2, []⟩ : RResult)], wCfg.similarityThreshold ≤ r.similarity) ∧
      [(⟨"d1", 2, []⟩ : RResult)].length ≤ pyOrNat (some 1) wCfg.maxDocuments) :=
  have hs : ∀ qe n f, (wSearch qe n f).length ≤ n := fun _ n _ => by
    simp [wSearch]
  ⟨hs, rfl,
    C6_retrieve_threshold_and_truncation wEmbed wSearch wCfg "q" none (some 1)
      [⟨"d1", 2, []⟩] hs rfl⟩

/-! ## C7 -/

/-- **C7.** `add_vectors` fails whenever some input vector's length differs
from the configured dimension (numpy's float32 conversion rejects a ragged
batch, and faiss's `d == self.d` assertion rejects a uniform batch of the wrong
width; both surface as the call's dimension-mismatch failure), and the failing
call returns no ids (the error value carries none, and neither metadata nor ids
are produced). -/
theorem C7_add_vectors_dimension_mismatch
    (s : VectorStore) (vectors : List (List ℚ))
    (metadata : Option (List (List (String × MVal)))) (now : String)
    (v : List ℚ) (hv : v ∈ vectors) (hd : v.length ≠ s.dimension) :
    addVectors s vectors metadata now = Except.error VErr.dimensionMismatch := by
  have h1 : vectors.isEmpty = false := by
    cases vectors with
    | nil => exact absurd hv (by simp)
    | cons a l => rfl
  have h2 : vectors.any (fun v => decide (v.length ≠ s.dimension)) = true :=
    List.any_eq_true.mpr ⟨v, hv, decide_eq_true hd⟩
  unfold addVectors
  rw [h1]
  simp only [Bool.false_eq_true, if_false, h2, if_true]

theorem C7_add_vectors_dimension_mismatch_witness :
    ([(1 : ℚ)] ∈ [[(1 : ℚ)]]) ∧ ([(1 : ℚ)].length ≠ exStore0.dimension) ∧
    addVectors exStore0 [[(1 : ℚ)]] none "t" = Except.error VErr.dimensionMismatch :=
  ⟨by simp, by decide,
    C7_add_vectors_dimension_mismatch exStore0 [[(1 : ℚ)]] none "t" [(1 : ℚ)]
      (by simp) (by decide)⟩

/-! ## C8 -/

/-- **C8 counterexample.** The claim says `get_vector` returns `None` for every
unknown id, *including negative ids*. A negative id passes the
`vector_id >= self.index.ntotal` guard (it is smaller than `ntotal`) and
reaches `faiss.reconstruct`, which raises on a negative key; `get_vector` logs
and re-raises. So `get_vector(-1)` on a two-vector store raises instead of
returning `None`. -/
theorem C8_negative_id_raises :
    getVector exStore2 (-1) = Except.error VErr.reconstructError := rfl

/-- **C8 (amended).** `get_vector` returns `None` without raising for every id
at or above the current count `index.ntotal`; negative ids instead raise (from
`faiss.reconstruct`). This theorem is the first half; the counterexample above
is the second. -/
theorem C8_high_id_returns_none (s : VectorStore) (vid : Int)
    (h : (s.index.length : Int) ≤ vid) : getVector s vid = Except.ok none := by
  unfold getVector
  rw [if_pos h]

theorem C8_high_id_returns_none_witness :
    ((exStore2.index.length : Int) ≤ 5) ∧ getVector exStore2 5 = Except.ok none :=
  ⟨by decide, C8_high_id_returns_none exStore2 5 (by decide)⟩

/-! ## C9 -/

/-- **C9 counterexample.** The claim says the document identifier is a
deterministic, stable function of content and metadata across runs. Without an
`'id'` metadata key, `_generate_doc_id` embeds
`datetime.now().strftime('%Y%m%d%H%M%S')` into the id, so two runs of
`process_document` on identical content and metadata (`None`) at different
times produce different identifiers — here with the md5 digest held fixed, so
the difference comes from the clock alone. -/
theorem C9_doc_id_depends_on_time :
    (processDocument cfgDefault exHash 1 "Hello.".data none "20250101000000").map PDoc.id =
      some "doc_20250101000000_01234567" ∧
    (processDocument cfgDefault exHash 1 "Hello.".data none "20250102000000").map PDoc.id =
      some "doc_20250102000000_01234567" ∧
    ("doc_20250101000000_01234567" : String) ≠ "doc_20250102000000_01234567" :=
  ⟨rfl, rfl, by decide⟩

/-- **C9 (amended).** The identifier is deterministic exactly when the caller's
metadata carries an `'id'` key: then it is `str(metadata['id'])`, independent of
the clock, and two runs of `process_document` with the same content and
metadata agree. Otherwise the id embeds the run's timestamp and differs between
runs at different times (see the counterexample). -/
theorem C9_doc_id_stable_given_metadata_id
    (cfg : ChunkCfg) (hash : List Char → String) (fuel : Nat) (content : List Char)
    (m : List (String × MVal)) (v : MVal) (t1 t2 : String)
    (hid : pyGet m "id" = some v) :
    (processDocument cfg hash fuel content (some m) t1).map PDoc.id =
      (processDocument cfg hash fuel content (some m) t2).map PDoc.id := by
  cases hs : splitIntoChunks cfg fuel (cleanText content) with
  | none => simp [processDocument, hs]
  | some cs => simp [processDocument, hs, genDocId, hid]

theorem C9_doc_id_stable_given_metadata_id_witness :
    (pyGet [("id", MVal.nat 42)] "id" = some (MVal.nat 42)) ∧
    (processDocument cfgDefault exHash 1 "Hello.".data
        (some [("id", MVal.nat 42)]) "t1").map PDoc.id =
      (processDocument cfgDefault exHash 1 "Hello.".data
        (some [("id", MVal.nat 42)]) "t2").map PDoc.id :=
  ⟨rfl,
    C9_doc_id_stable_given_metadata_id cfgDefault exHash 1 "Hello.".data
      [("id", MVal.nat 42)] (MVal.nat 42) "t1" "t2" rfl⟩

/-! ## C10 -/

/-- Reading back the key just assigned by `pySet` yields the new value. -/
theorem pyGet_pySet_self {m : List (String × MVal)} {k : String} {v : MVal} :
    pyGet (pySet m k v) k = some v := by
  unfold pySet
  split
  · rename_i h
    induction m with
    | nil => simp at h
    | cons p rest ih =>
      simp only [List.any_cons, Bool.or_eq_true, decide_eq_true_eq] at h
      by_cases hp : p.1 = k
      · simp [pyGet, hp]
      · have hrest : rest.any (fun p => decide (p.1 = k)) = true := by
          rcases h with h | h
          · exact absurd h hp
          · exact h
        simpa [pyGet, hp] using ih hrest
  · rename_i h
    induction m with
    | nil => simp [pyGet]
    | cons p rest ih =>
      simp only [List.any_cons, Bool.or_eq_true, decide_eq_true_eq, not_or] at h
      simpa [pyGet, h.1] using ih h.2

/-- `pySet` at key `k` leaves the value read at every other key unchanged. -/
theorem pyGet_pySet_ne {m : List (String × MVal)} {k : String} {v : MVal}
    {k' : String} (hne : k' ≠ k) :
    pyGet (pySet m k v) k' = pyGet m k' := by
  have hkk' : k ≠ k' := fun he => hne he.symm
  unfold pySet
  split
  · rename_i h
    clear h
    induction m with
    | nil => rfl
    | cons p rest ih =>
      by_cases hp : p.1 = k
      · simp only [List.map_cons, if_pos hp, pyGet, if_neg hkk', if_neg (hp ▸ hkk')]
        exact ih
      · simp only [List.map_cons, if_neg hp, pyGet]
        by_cases hq : p.1 = k'
        · simp [hq]
        · simp only [if_neg hq]
          exact ih
  · rename_i h
    clear h
    induction m with
    | nil => simp [pyGet, hkk']
    | cons p rest ih =>
      simp only [List.cons_append, pyGet]
      by_cases hq : p.1 = k'
      · simp [hq]
      · simp only [if_neg hq]
        exact ih

/-- **C10.** `process_document` mutates the caller's metadata dict in place: in
Python the returned `Document.metadata` *is* the caller's dict, so the
post-call state of the caller's mapping is the result's `metadata` field. For
every call with a non-`None` metadata argument that returns, that mapping
afterwards contains the keys `processed_at`, `chunk_size`, `chunk_overlap` and
`total_chunks`, and every other key still maps to its pre-call value. -/
theorem C10_process_document_mutates_metadata
    (cfg : ChunkCfg) (hash : List Char → String) (fuel : Nat) (content : List Char)
    (m : List (String × MVal)) (now : String) (doc : PDoc)
    (h : processDocument cfg hash fuel content (some m) now = some doc) :
    (pyGet doc.metadata "processed_at").isSome ∧
    (pyGet doc.metadata "chunk_size").isSome ∧
    (pyGet doc.metadata "chunk_overlap").isSome ∧
    (pyGet doc.metadata "total_chunks").isSome ∧
    ∀ k : String, k ≠ "processed_at" → k ≠ "chunk_size" → k ≠ "chunk_overlap" →
      k ≠ "total_chunks" → pyGet doc.metadata k = pyGet m k := by
  simp only [processDocument, Option.getD_some] at h
  cases hs : splitIntoChunks cfg fuel (cleanText content) with
  | none => rw [hs] at h; simp at h
  | some cs =>
    rw [hs] at h
    have hmd : doc.metadata =
        pySet (pyUpdate m
          [("processed_at", .str now), ("chunk_size", .nat cfg.chunkSize),
           ("chunk_overlap", .nat cfg.chunkOverlap), ("total_chunks", .nat 0)])
          "total_chunks" (.nat cs.length) := by
      rw [← Option.some_inj.mp h]
    rw [hmd]
    simp only [pyUpdate, List.foldl_cons, List.foldl_nil]
    refine ⟨?_, ?_, ?_, ?_, ?_⟩
    · rw [pyGet_pySet_ne (by decide), pyGet_pySet_ne (by decide),
        pyGet_pySet_ne (by decide), pyGet_pySet_ne (by decide), pyGet_pySet_self]
      rfl
    · rw [pyGet_pySet_ne (by decide), pyGet_pySet_ne (by decide),
        pyGet_pySet_ne (by decide), pyGet_pySet_self]
      rfl
    · rw [pyGet_pySet_ne (by decide), pyGet_pySet_ne (by decide), pyGet_pySet_self]
      rfl
    · rw [pyGet_pySet_self]
      rfl
    · intro k h1 h2 h3 h4
      rw [pyGet_pySet_ne h4, pyGet_pySet_ne h4, pyGet_pySet_ne h3,
        pyGet_pySet_ne h2, pyGet_pySet_ne h1]

/-- The caller's metadata for the C10 witness. -/
def wMeta : List (String × MVal) := [("title", .str "x")]

/-- The document that `process_document("Hi", {'title': 'x'})` produces at
clock reading `"T"` under the default configuration: `"Hi"` is shorter than
`min_chunk_size`, so no chunks are emitted and `total_chunks` stays 0. -/
def wDoc : PDoc :=
  ⟨"doc_T_01234567", "Hi".data,
   [("title", .str "x"), ("processed_at", .str "T"), ("chunk_size", .nat 1000),
    ("chunk_overlap", .nat 200), ("total_chunks", .nat 0)], []⟩

theorem C10_process_document_mutates_metadata_witness :
    processDocument cfgDefault exHash 1 "Hi".data (some wMeta) "T" = some wDoc ∧
    ((pyGet wDoc.metadata "processed_at").isSome ∧
      (pyGet wDoc.metadata "chunk_size").isSome ∧
      (pyGet wDoc.metadata "chunk_overlap").isSome ∧
      (pyGet wDoc.metadata "total_chunks").isSome ∧
      pyGet wDoc.metadata "title" = pyGet wMeta "title") :=
  have h : processDocument cfgDefault exHash 1 "Hi".data (some wMeta) "T" = some wDoc := rfl
  have hall := C10_process_document_mutates_metadata cfgDefault exHash 1 "Hi".data
    wMeta "T" wDoc h
  ⟨h, hall.1, hall.2.1, hall.2.2.1, hall.2.2.2.1,
    hall.2.2.2.2 "title" (by decide) (by decide) (by decide) (by decide)⟩

end Jarvis
